import Mathlib

/-!
Verification of the Andromeda ADX trading bot core.

Shallow embedding of the core components (position sizer, risk manager,
signal generator, ADX confidence, signal filters, paper trader / position
manager) over exact rational arithmetic.  Python floats are modelled as
rationals; a Python `ZeroDivisionError` is modelled by an `Option`-returning
function yielding `none`; the presentation-level `round(x, n)` calls that the
source applies to the fields of its result dictionaries are omitted (the
model keeps the exact values the source computes before rounding).
-/

namespace Andromeda

/-! ## Position sizer (src/risk/position_sizer.py) -/

namespace PositionSizer

/-- Constructor parameters of `PositionSizer.__init__` with their source
defaults.  `initial_capital` / `current_capital` are passed explicitly as the
`balance` argument below (the source uses `account_balance or
self.current_capital`). -/
structure Config where
  risk_per_trade_percent : ℚ := 2
  leverage : ℚ := 5
  max_position_size_percent : ℚ := 20
  min_position_size_usd : ℚ := 10
deriving Repr, DecidableEq

/-- The result dictionary of `PositionSizer.calculate_position_size`,
field-for-field (exact values, before the source's `round(.., n)`
presentation rounding). -/
structure SizeResult where
  position_size_btc : ℚ
  position_size_usd : ℚ
  margin_required : ℚ
  risk_amount : ℚ
  actual_risk_amount : ℚ
  risk_percent : ℚ
  actual_risk_percent : ℚ
  stop_distance : ℚ
  stop_distance_percent : ℚ
  leverage : ℚ
  account_balance : ℚ
  is_valid : Bool
deriving Repr, DecidableEq

/-- `PositionSizer.calculate_position_size`.  Returns `none` exactly where the
Python code raises `ZeroDivisionError`: dividing by `entry_price` when it is
zero, dividing by `stop_distance_percent` when the stop equals the entry,
dividing by `leverage` when it is zero, and dividing by `balance` when it is
zero (the unguarded `actual_risk_percent = (actual_risk_amount / balance) *
100`). -/
def calculate_position_size (cfg : Config) (entry_price stop_loss balance : ℚ) :
    Option SizeResult :=
  let risk_amount := balance * (cfg.risk_per_trade_percent / 100)
  let stop_distance := |entry_price - stop_loss|
  if entry_price = 0 then none
  else
    let stop_distance_percent := stop_distance / entry_price * 100
    if stop_distance_percent = 0 then none
    else
      let position_size_notional := risk_amount / (stop_distance_percent / 100)
      let max_position_notional := balance * cfg.leverage
      let position_size_notional :=
        min position_size_notional
          (max_position_notional * (cfg.max_position_size_percent / 100))
      let position_size_btc := position_size_notional / entry_price
      if cfg.leverage = 0 then none
      else
        let margin_required := position_size_notional / cfg.leverage
        let actual_risk_amount := stop_distance_percent / 100 * position_size_notional
        if balance = 0 then none
        else
        let actual_risk_percent := actual_risk_amount / balance * 100
        some
          { position_size_btc := position_size_btc
            position_size_usd := position_size_notional
            margin_required := margin_required
            risk_amount := risk_amount
            actual_risk_amount := actual_risk_amount
            risk_percent := cfg.risk_per_trade_percent
            actual_risk_percent := actual_risk_percent
            stop_distance := stop_distance
            stop_distance_percent := stop_distance_percent
            leverage := cfg.leverage
            account_balance := balance
            is_valid := decide (position_size_notional ≥ cfg.min_position_size_usd) }

/-- C2: for `entry_price > 0`, `stop_loss ≠ entry_price` and `balance > 0`
(and nonzero leverage), the proposal returned by `calculate_position_size`
satisfies: notional = min(risk_amount / stop_distance_fraction,
balance·leverage·max_position_size_percent/100) with risk_amount =
balance·risk_per_trade_percent/100 and stop_distance_fraction =
|entry − stop|/entry; quantity = notional/entry_price; margin_required =
notional/leverage (so margin_required·leverage = notional, exactly in exact
arithmetic); and is_valid is false exactly when notional <
min_position_size_usd. -/
theorem position_size_formula (cfg : Config) (entry_price stop_loss balance : ℚ)
    (r : SizeResult)
    (he : 0 < entry_price) (hs : stop_loss ≠ entry_price) (hb : 0 < balance)
    (hl : 0 < cfg.leverage)
    (hr : calculate_position_size cfg entry_price stop_loss balance = some r) :
    r.position_size_usd =
      min (balance * (cfg.risk_per_trade_percent / 100) /
            (|entry_price - stop_loss| / entry_price))
        (balance * cfg.leverage * (cfg.max_position_size_percent / 100))
    ∧ r.position_size_btc = r.position_size_usd / entry_price
    ∧ r.margin_required = r.position_size_usd / cfg.leverage
    ∧ r.margin_required * cfg.leverage = r.position_size_usd
    ∧ (r.is_valid = false ↔ r.position_size_usd < cfg.min_position_size_usd) := by
  have he0 : entry_price ≠ 0 := ne_of_gt he
  have hsd : |entry_price - stop_loss| ≠ 0 := by
    simp only [abs_ne_zero, sub_ne_zero]
    exact fun h => hs h.symm
  have hl0 : cfg.leverage ≠ 0 := ne_of_gt hl
  simp only [calculate_position_size] at hr
  rw [if_neg he0] at hr
  rw [if_neg (by
    intro h
    rcases mul_eq_zero.mp h with h' | h'
    · exact hsd (div_eq_zero_iff.mp h' |>.elim id fun c => absurd c he0)
    · norm_num at h')] at hr
  rw [if_neg hl0] at hr
  rw [if_neg (ne_of_gt hb)] at hr
  rw [Option.some.injEq] at hr
  subst hr
  refine ⟨?_, rfl, rfl, div_mul_cancel₀ _ hl0, ?_⟩
  · have h100 : |entry_price - stop_loss| / entry_price * 100 / 100 =
        |entry_price - stop_loss| / entry_price := by
      rw [mul_div_assoc]
      norm_num
    rw [h100]
  · simp only [ge_iff_le, decide_eq_false_iff_not, not_le]

/-- Concrete instantiation of `position_size_formula`:
entry 100, stop 99, balance 100, default config. -/
def sampleResult : SizeResult :=
  { position_size_btc := 1
    position_size_usd := 100
    margin_required := 20
    risk_amount := 2
    actual_risk_amount := 1
    risk_percent := 2
    actual_risk_percent := 1
    stop_distance := 1
    stop_distance_percent := 1
    leverage := 5
    account_balance := 100
    is_valid := true }

/-- Witness for C2 at entry 100, stop 99, balance 100, default config. -/
theorem position_size_formula_witness :
    sampleResult.position_size_usd =
      min ((100 : ℚ) * (2 / 100) / (|(100 : ℚ) - 99| / 100)) (100 * 5 * (20 / 100))
    ∧ sampleResult.position_size_btc = sampleResult.position_size_usd / 100
    ∧ sampleResult.margin_required = sampleResult.position_size_usd / 5
    ∧ sampleResult.margin_required * 5 = sampleResult.position_size_usd
    ∧ (sampleResult.is_valid = false ↔ sampleResult.position_size_usd < 10) :=
  position_size_formula {} 100 99 100 sampleResult (by norm_num) (by norm_num)
    (by norm_num) (by norm_num)
    (by norm_num [calculate_position_size, min_def, sampleResult])

/-- C8 counterexample: at entry 112000, stop 111500, balance 100, default
config (risk 2 percent, leverage 5, max position 20 percent), the returned
notional is 100 (not ≈448.43), the margin is 20 (not ≈89.69) and the quantity
is 1/1120 ≈ 0.000893 BTC (not ≈0.004004), each off the claimed value by far
more than any rounding tolerance. -/
theorem scenario_b_claim_false :
    ((calculate_position_size {} 112000 111500 100).map SizeResult.position_size_usd
        = some 100
      ∧ ¬ (|(100 : ℚ) - 44843 / 100| ≤ 10))
    ∧ ((calculate_position_size {} 112000 111500 100).map SizeResult.margin_required
        = some 20
      ∧ ¬ (|(20 : ℚ) - 8969 / 100| ≤ 10))
    ∧ ((calculate_position_size {} 112000 111500 100).map SizeResult.position_size_btc
        = some (1 / 1120)
      ∧ ¬ (|(1 / 1120 : ℚ) - 4004 / 1000000| ≤ 1 / 1000)) := by
  refine ⟨⟨?_, by rw [abs_of_nonpos] <;> norm_num⟩,
    ⟨?_, by rw [abs_of_nonpos] <;> norm_num⟩,
    ⟨?_, by rw [abs_of_nonpos] <;> norm_num⟩⟩ <;>
    norm_num [calculate_position_size, min_def]

/-- C8 amended: at entry 112000, stop 111500, balance 100, default config:
risk_amount = 2, stop_distance_percent = 25/56 ≈ 0.4464 percent, the
risk-based (uncapped) notional is exactly 448, the leveraged cap
20 percent · (100·5) = 100 binds, so the returned proposal has notional 100,
quantity 1/1120 ≈ 0.000893 BTC and margin_required 20. -/
theorem scenario_b_actual :
    calculate_position_size {} 112000 111500 100 =
      some
        { position_size_btc := 1 / 1120
          position_size_usd := 100
          margin_required := 20
          risk_amount := 2
          actual_risk_amount := 25 / 56
          risk_percent := 2
          actual_risk_percent := 25 / 56
          stop_distance := 500
          stop_distance_percent := 25 / 56
          leverage := 5
          account_balance := 100
          is_valid := true }
    ∧ (100 : ℚ) * (2 / 100) / ((25 / 56) / 100) = 448
    ∧ min (448 : ℚ) (100 * 5 * (20 / 100)) = 100 := by
  refine ⟨?_, by norm_num, by norm_num [min_def]⟩
  norm_num [calculate_position_size, min_def]

/-- C10 counterexample: the precondition the claim states as sufficient for
totality — `entry_price > 0 ∧ stop_loss ≠ entry_price` — is not: at entry
100, stop 99 (both satisfying it) and balance 0, the unguarded division
`actual_risk_amount / balance` still raises `ZeroDivisionError` (modelled as
`none`). -/
theorem position_size_balance_counterexample :
    calculate_position_size {} 100 99 0 = none
    ∧ (0 : ℚ) < 100
    ∧ (99 : ℚ) ≠ 100 := by
  refine ⟨?_, by norm_num, by norm_num⟩
  norm_num [calculate_position_size]

/-- C10 amended: `calculate_position_size` is not total: with `stop_loss =
entry_price` (or `entry_price = 0`) the division by the stop distance
(respectively by `entry_price`) raises `ZeroDivisionError` — modelled here as
`none` — and a zero resolved balance hits the unguarded
`actual_risk_amount / balance` division the same way; under the precondition
`entry_price > 0 ∧ stop_loss ≠ entry_price ∧ balance ≠ 0` (with the
configured nonzero leverage) a proposal is always returned. -/
theorem position_size_totality (cfg : Config) (entry_price stop_loss balance : ℚ)
    (hl : cfg.leverage ≠ 0) :
    (0 < entry_price → stop_loss ≠ entry_price → balance ≠ 0 →
      (calculate_position_size cfg entry_price stop_loss balance).isSome)
    ∧ calculate_position_size cfg entry_price entry_price balance = none
    ∧ calculate_position_size cfg 0 stop_loss balance = none
    ∧ (0 < entry_price → stop_loss ≠ entry_price →
      calculate_position_size cfg entry_price stop_loss 0 = none) := by
  have hsd : entry_price ≠ 0 → stop_loss ≠ entry_price →
      |entry_price - stop_loss| / entry_price * 100 ≠ 0 := by
    intro he0 hs h
    rcases mul_eq_zero.mp h with h' | h'
    · rcases div_eq_zero_iff.mp h' with h'' | h''
      · exact hs (sub_eq_zero.mp (abs_eq_zero.mp h'')).symm
      · exact he0 h''
    · norm_num at h'
  refine ⟨?_, ?_, ?_, ?_⟩
  · intro he hs hb
    simp only [calculate_position_size]
    rw [if_neg (ne_of_gt he), if_neg (hsd (ne_of_gt he) hs), if_neg hl, if_neg hb]
    rfl
  · simp only [calculate_position_size]
    by_cases he0 : entry_price = 0
    · rw [if_pos he0]
    · rw [if_neg he0, if_pos (by simp)]
  · simp [calculate_position_size]
  · intro he hs
    simp only [calculate_position_size]
    rw [if_neg (ne_of_gt he), if_neg (hsd (ne_of_gt he) hs), if_neg hl]
    simp

/-- Witness for C10: with the default config, entry 100 and stop 99 the sizer
returns a proposal at balance 50, while stop = entry = 100, entry = 0 and
balance = 0 each hit an unguarded division. -/
theorem position_size_totality_witness :
    ((0 : ℚ) < 100 → (99 : ℚ) ≠ 100 → (50 : ℚ) ≠ 0 →
      (calculate_position_size {} 100 99 50).isSome)
    ∧ calculate_position_size {} 100 100 50 = none
    ∧ calculate_position_size {} 0 99 50 = none
    ∧ ((0 : ℚ) < 100 → (99 : ℚ) ≠ 100 →
      calculate_position_size {} 100 99 0 = none) :=
  position_size_totality {} 100 99 50 (by norm_num)

end PositionSizer

/-! ## Risk manager (src/risk/risk_manager.py)

The `datetime`-based daily rollover (`check_daily_reset`) is modelled as not
firing, i.e. every operation happens within one trading day; no claim in
scope concerns the rollover itself. -/

namespace RiskManager

/-- Structured rendering of the reason strings produced by
`can_open_position` / `activate_circuit_breaker`.  `circuitBreaker` wraps the
stored `circuit_breaker_reason` (the f-string
`"Circuit breaker active: {reason}"`). -/
inductive Reason where
  | circuitBreaker (inner : Option Reason)
  | maxPositions
  | dailyLoss
  | drawdown
  | consecutiveLosses

/-- Does a reason string mention consecutive losses?  True for the
consecutive-loss limit reason itself and for the circuit-breaker wrapper
around it. -/
def Reason.mentionsConsecutive : Reason → Bool
  | .consecutiveLosses => true
  | .circuitBreaker (some r) => r.mentionsConsecutive
  | _ => false

/-- Trade outcome strings accepted by `record_trade_result`: WIN, LOSS, or
TIMEOUT (any other string behaves like TIMEOUT: neither branch taken). -/
inductive Outcome where
  | WIN
  | LOSS
  | TIMEOUT
deriving Repr, DecidableEq

/-- The state of a `RiskManager` instance (`__init__` fields, minus the
wall-clock `last_reset_date`).  Open positions are tracked by id, as in
`add_open_position` / `remove_open_position`. -/
structure State where
  initial_capital : ℚ
  current_capital : ℚ
  peak_capital : ℚ
  daily_loss_limit_percent : ℚ
  max_drawdown_percent : ℚ
  max_concurrent_positions : ℕ
  risk_per_trade_percent : ℚ
  max_risk_per_trade_percent : ℚ
  consecutive_loss_limit : ℕ
  daily_pnl : ℚ
  daily_start_capital : ℚ
  open_positions : List String
  consecutive_losses : ℕ
  total_trades : ℕ
  winning_trades : ℕ
  losing_trades : ℕ
  circuit_breaker_active : Bool
  circuit_breaker_reason : Option Reason

/-- `RiskManager.__init__` with the source defaults. -/
def State.init (initial_capital : ℚ := 100) (daily_loss_limit_percent : ℚ := 5)
    (max_drawdown_percent : ℚ := 15) (max_concurrent_positions : ℕ := 2)
    (risk_per_trade_percent : ℚ := 2) (max_risk_per_trade_percent : ℚ := 3)
    (consecutive_loss_limit : ℕ := 3) : State :=
  { initial_capital := initial_capital
    current_capital := initial_capital
    peak_capital := initial_capital
    daily_loss_limit_percent := daily_loss_limit_percent
    max_drawdown_percent := max_drawdown_percent
    max_concurrent_positions := max_concurrent_positions
    risk_per_trade_percent := risk_per_trade_percent
    max_risk_per_trade_percent := max_risk_per_trade_percent
    consecutive_loss_limit := consecutive_loss_limit
    daily_pnl := 0
    daily_start_capital := initial_capital
    open_positions := []
    consecutive_losses := 0
    total_trades := 0
    winning_trades := 0
    losing_trades := 0
    circuit_breaker_active := false
    circuit_breaker_reason := none }

/-- `RiskManager.record_trade_result` (same trading day, so
`check_daily_reset` is the identity). -/
def record_trade_result (s : State) (pnl : ℚ) (outcome : Outcome) : State :=
  let s := { s with daily_pnl := s.daily_pnl + pnl, total_trades := s.total_trades + 1 }
  match outcome with
  | .WIN => { s with winning_trades := s.winning_trades + 1, consecutive_losses := 0 }
  | .LOSS =>
      { s with losing_trades := s.losing_trades + 1,
               consecutive_losses := s.consecutive_losses + 1 }
  | .TIMEOUT => s

/-- `RiskManager.update_capital`. -/
def update_capital (s : State) (new_capital : ℚ) : State :=
  { s with current_capital := new_capital,
           peak_capital := if new_capital > s.peak_capital then new_capital
                           else s.peak_capital }

/-- `RiskManager.activate_circuit_breaker`. -/
def activate_circuit_breaker (s : State) (reason : Reason) : State :=
  { s with circuit_breaker_active := true, circuit_breaker_reason := some reason }

/-- `RiskManager.deactivate_circuit_breaker` (the manual reset). -/
def deactivate_circuit_breaker (s : State) : State :=
  { s with circuit_breaker_active := false, circuit_breaker_reason := none,
           consecutive_losses := 0 }

/-- `RiskManager.add_open_position`. -/
def add_open_position (s : State) (position_id : String) : State :=
  { s with open_positions := s.open_positions ++ [position_id] }

/-- `RiskManager.remove_open_position`. -/
def remove_open_position (s : State) (position_id : String) : State :=
  { s with open_positions := s.open_positions.filter (· ≠ position_id) }

/-- `RiskManager.can_open_position`: returns the (possibly mutated) state,
the boolean, and the structured reason.  Checks, in source order: active
circuit breaker, concurrent-position cap, daily-loss limit, drawdown limit,
consecutive-loss limit; the last three activate the circuit breaker as a side
effect when they fire. -/
def can_open_position (s : State) : State × Bool × Option Reason :=
  if s.circuit_breaker_active then
    (s, false, some (.circuitBreaker s.circuit_breaker_reason))
  else if s.open_positions.length ≥ s.max_concurrent_positions then
    (s, false, some .maxPositions)
  else
    let daily_loss_percent := s.daily_pnl / s.daily_start_capital * 100
    if daily_loss_percent ≤ -s.daily_loss_limit_percent then
      (activate_circuit_breaker s .dailyLoss, false, some .dailyLoss)
    else
      let drawdown_percent := (s.peak_capital - s.current_capital) / s.peak_capital * 100
      if drawdown_percent ≥ s.max_drawdown_percent then
        (activate_circuit_breaker s .drawdown, false, some .drawdown)
      else if s.consecutive_losses ≥ s.consecutive_loss_limit then
        (activate_circuit_breaker s .consecutiveLosses, false, some .consecutiveLosses)
      else
        (s, true, none)

/-- The operations that mutate a `RiskManager` between queries; used to state
that only the manual `deactivate_circuit_breaker` leaves the
circuit-breaker-active state. -/
inductive Op where
  | record (pnl : ℚ) (outcome : Outcome)
  | updateCapital (new_capital : ℚ)
  | addPosition (position_id : String)
  | removePosition (position_id : String)
  | canOpenQuery
  | activate (reason : Reason)
  | deactivate

/-- Apply one risk-manager operation to the state. -/
def applyOp (s : State) : Op → State
  | .record pnl outcome => record_trade_result s pnl outcome
  | .updateCapital c => update_capital s c
  | .addPosition i => add_open_position s i
  | .removePosition i => remove_open_position s i
  | .canOpenQuery => (can_open_position s).1
  | .activate r => activate_circuit_breaker s r
  | .deactivate => deactivate_circuit_breaker s

/-- Fold a list of trade results into the state. -/
def recordAll (s : State) (trades : List (ℚ × Outcome)) : State :=
  trades.foldl (fun t p => record_trade_result t p.1 p.2) s

theorem recordAll_consecutive_losses (s : State) (pnls : List ℚ) :
    (recordAll s (pnls.map (·, Outcome.LOSS))).consecutive_losses =
      s.consecutive_losses + pnls.length := by
  induction pnls generalizing s with
  | nil => simp [recordAll]
  | cons p ps ih =>
      simp only [List.map_cons, recordAll, List.foldl_cons, List.length_cons]
      have := ih (record_trade_result s p .LOSS)
      simp only [recordAll] at this
      rw [this]
      simp [record_trade_result]
      omega

theorem recordAll_preserves (s : State) (trades : List (ℚ × Outcome)) :
    (recordAll s trades).circuit_breaker_active = s.circuit_breaker_active
    ∧ (recordAll s trades).daily_start_capital = s.daily_start_capital
    ∧ (recordAll s trades).peak_capital = s.peak_capital
    ∧ (recordAll s trades).current_capital = s.current_capital
    ∧ (recordAll s trades).open_positions = s.open_positions
    ∧ (recordAll s trades).max_concurrent_positions = s.max_concurrent_positions
    ∧ (recordAll s trades).consecutive_loss_limit = s.consecutive_loss_limit
    ∧ (recordAll s trades).daily_loss_limit_percent = s.daily_loss_limit_percent
    ∧ (recordAll s trades).max_drawdown_percent = s.max_drawdown_percent := by
  induction trades generalizing s with
  | nil => simp [recordAll]
  | cons t ts ih =>
      simp only [recordAll, List.foldl_cons]
      have := ih (record_trade_result s t.1 t.2)
      simp only [recordAll] at this
      refine this.imp ?_ (fun h => h.imp ?_ (fun h => h.imp ?_ (fun h => h.imp ?_
        (fun h => h.imp ?_ (fun h => h.imp ?_ (fun h => h.imp ?_ (fun h => h.imp ?_ ?_))))))) <;>
        intro h <;> rw [h] <;> cases t.2 <;> simp [record_trade_result]

/-- C1 counterexample: with the default configuration (limit 3, capital 100,
daily loss limit 5 percent), three consecutive LOSS results of −10 each do
close the gate, but the reason is the daily-loss limit, not consecutive
losses, because `can_open_position` checks the daily-loss limit first. -/
theorem consecutive_loss_reason_counterexample :
    (recordAll State.init [(-10, .LOSS), (-10, .LOSS), (-10, .LOSS)]).consecutive_losses = 3
    ∧ State.init.consecutive_loss_limit = 3
    ∧ (can_open_position
        (recordAll State.init [(-10, .LOSS), (-10, .LOSS), (-10, .LOSS)])).2.1 = false
    ∧ (can_open_position
        (recordAll State.init [(-10, .LOSS), (-10, .LOSS), (-10, .LOSS)])).2.2 =
        some .dailyLoss
    ∧ Reason.mentionsConsecutive .dailyLoss = false := by
  refine ⟨?_, rfl, ?_, ?_, rfl⟩ <;>
    norm_num [State.init, recordAll, record_trade_result, can_open_position,
      activate_circuit_breaker]

/-- C1 amended: after exactly `consecutive_loss_limit` consecutive LOSS
results (starting from a zero counter) `can_open_position` returns false, and
the reason names consecutive losses provided the circuit breaker was not
already active, the concurrent-position cap is not reached, and neither the
daily-loss nor the drawdown limit fires first; a single WIN resets the
counter to 0; and once the breaker is active every query keeps refusing and
every operation other than the explicit manual deactivation keeps it active,
while the deactivation clears it and resets the consecutive-loss counter. -/
theorem consecutive_loss_circuit_breaker
    (s s2 : State) (pnls : List ℚ) (pnl : ℚ) (op : Op)
    (hstart : s.consecutive_losses = 0)
    (hlen : pnls.length = s.consecutive_loss_limit)
    (hcb : s.circuit_breaker_active = false)
    (hpos : s.open_positions.length < s.max_concurrent_positions)
    (hdaily : ¬((recordAll s (pnls.map (·, Outcome.LOSS))).daily_pnl /
        s.daily_start_capital * 100 ≤ -s.daily_loss_limit_percent))
    (hdd : ¬((s.peak_capital - s.current_capital) / s.peak_capital * 100 ≥
        s.max_drawdown_percent))
    (hcb2 : s2.circuit_breaker_active = true)
    (hop : op ≠ .deactivate) :
    (can_open_position (recordAll s (pnls.map (·, Outcome.LOSS)))).2.1 = false
    ∧ (can_open_position (recordAll s (pnls.map (·, Outcome.LOSS)))).2.2 =
        some .consecutiveLosses
    ∧ Reason.mentionsConsecutive .consecutiveLosses = true
    ∧ (record_trade_result s pnl .WIN).consecutive_losses = 0
    ∧ (can_open_position s2).2.1 = false
    ∧ (applyOp s2 op).circuit_breaker_active = true
    ∧ (deactivate_circuit_breaker s2).circuit_breaker_active = false
    ∧ (deactivate_circuit_breaker s2).consecutive_losses = 0 := by
  obtain ⟨hb', hdsc, hpk, hcur, hops, hmax, hlim, hdll, hmdd⟩ :=
    recordAll_preserves s (pnls.map (·, Outcome.LOSS))
  have hcl : (recordAll s (pnls.map (·, Outcome.LOSS))).consecutive_losses =
      s.consecutive_loss_limit := by
    rw [recordAll_consecutive_losses, hstart]
    omega
  have h1 : ¬((recordAll s (pnls.map (·, Outcome.LOSS))).circuit_breaker_active = true) := by
    rw [hb', hcb]
    simp
  have h2 : ¬((recordAll s (pnls.map (·, Outcome.LOSS))).open_positions.length ≥
      (recordAll s (pnls.map (·, Outcome.LOSS))).max_concurrent_positions) := by
    rw [hops, hmax]
    omega
  have h3 : ¬((recordAll s (pnls.map (·, Outcome.LOSS))).daily_pnl /
      (recordAll s (pnls.map (·, Outcome.LOSS))).daily_start_capital * 100 ≤
      -(recordAll s (pnls.map (·, Outcome.LOSS))).daily_loss_limit_percent) := by
    rw [hdsc, hdll]
    exact hdaily
  have h4 : ¬(((recordAll s (pnls.map (·, Outcome.LOSS))).peak_capital -
      (recordAll s (pnls.map (·, Outcome.LOSS))).current_capital) /
      (recordAll s (pnls.map (·, Outcome.LOSS))).peak_capital * 100 ≥
      (recordAll s (pnls.map (·, Outcome.LOSS))).max_drawdown_percent) := by
    rw [hpk, hcur, hmdd]
    exact hdd
  have h5 : (recordAll s (pnls.map (·, Outcome.LOSS))).consecutive_losses ≥
      (recordAll s (pnls.map (·, Outcome.LOSS))).consecutive_loss_limit := by
    rw [hcl, hlim]
  have hres : can_open_position (recordAll s (pnls.map (·, Outcome.LOSS))) =
      (activate_circuit_breaker (recordAll s (pnls.map (·, Outcome.LOSS)))
        .consecutiveLosses, false, some .consecutiveLosses) := by
    simp only [can_open_position]
    rw [if_neg h1, if_neg h2, if_neg h3, if_neg h4, if_pos h5]
  have hq : can_open_position s2 = (s2, false,
      some (.circuitBreaker s2.circuit_breaker_reason)) := by
    simp [can_open_position, hcb2]
  refine ⟨by rw [hres], by rw [hres], rfl, by simp [record_trade_result], by rw [hq], ?_,
    by simp [deactivate_circuit_breaker], by simp [deactivate_circuit_breaker]⟩
  cases op with
  | record pnl outcome => cases outcome <;> simp [applyOp, record_trade_result, hcb2]
  | updateCapital c => simp [applyOp, update_capital, hcb2]
  | addPosition i => simp [applyOp, add_open_position, hcb2]
  | removePosition i => simp [applyOp, remove_open_position, hcb2]
  | canOpenQuery => simp [applyOp, hq, hcb2]
  | activate r => simp [applyOp, activate_circuit_breaker]
  | deactivate => exact absurd rfl hop

/-- Witness for C1: default configuration, three break-even losses, a WIN of
5, and (for the latch part) a state whose breaker was activated by the
daily-loss limit, hit with a recording operation. -/
theorem consecutive_loss_circuit_breaker_witness :
    (can_open_position (recordAll State.init
        (([0, 0, 0] : List ℚ).map (·, Outcome.LOSS)))).2.1 = false
    ∧ (can_open_position (recordAll State.init
        (([0, 0, 0] : List ℚ).map (·, Outcome.LOSS)))).2.2 = some .consecutiveLosses
    ∧ Reason.mentionsConsecutive .consecutiveLosses = true
    ∧ (record_trade_result State.init 5 .WIN).consecutive_losses = 0
    ∧ (can_open_position (activate_circuit_breaker State.init .dailyLoss)).2.1 = false
    ∧ (applyOp (activate_circuit_breaker State.init .dailyLoss)
        (.record 1 .WIN)).circuit_breaker_active = true
    ∧ (deactivate_circuit_breaker
        (activate_circuit_breaker State.init .dailyLoss)).circuit_breaker_active = false
    ∧ (deactivate_circuit_breaker
        (activate_circuit_breaker State.init .dailyLoss)).consecutive_losses = 0 :=
  consecutive_loss_circuit_breaker State.init
    (activate_circuit_breaker State.init .dailyLoss) [0, 0, 0] 5 (.record 1 .WIN)
    rfl rfl rfl (by norm_num [State.init])
    (by norm_num [State.init, recordAll, record_trade_result])
    (by norm_num [State.init])
    rfl (fun h => Op.noConfusion h)

/-- C7 counterexample: in a state where the daily-loss limit has been hit but
the breaker is not yet active, the first `can_open_position` call returns the
daily-loss reason and activates the breaker, so the second call returns the
distinct circuit-breaker-wrapper reason: the two calls do not return the same
reason. -/
theorem can_open_position_reason_changes :
    (can_open_position (record_trade_result State.init (-10) .LOSS)).2.2 =
      some .dailyLoss
    ∧ (can_open_position (can_open_position
        (record_trade_result State.init (-10) .LOSS)).1).2.2 =
        some (.circuitBreaker (some .dailyLoss))
    ∧ some Reason.dailyLoss ≠ some (Reason.circuitBreaker (some .dailyLoss)) := by
  refine ⟨?_, ?_, by simp⟩ <;>
    norm_num [State.init, record_trade_result, can_open_position,
      activate_circuit_breaker]

/-- C7 amended: repeated `can_open_position` calls with no intervening
operations return the same boolean; the reason is also identical whenever the
first call leaves the circuit-breaker state unchanged, and when the first
call newly activates the breaker the second call returns the
circuit-breaker-wrapper of the first reason. -/
theorem can_open_position_repeat (s : State)
    (hd : 0 < s.daily_start_capital) (hp : 0 < s.peak_capital) :
    (can_open_position (can_open_position s).1).2.1 = (can_open_position s).2.1
    ∧ ((can_open_position s).1.circuit_breaker_active = s.circuit_breaker_active →
        (can_open_position (can_open_position s).1).2.2 = (can_open_position s).2.2)
    ∧ (s.circuit_breaker_active = false →
        (can_open_position s).1.circuit_breaker_active = true →
        (can_open_position (can_open_position s).1).2.2 =
          some (Reason.circuitBreaker (can_open_position s).2.2)) := by
  by_cases hB : s.circuit_breaker_active = true
  · have h1 : can_open_position s =
        (s, false, some (.circuitBreaker s.circuit_breaker_reason)) := by
      simp [can_open_position, hB]
    refine ⟨by simp [h1], fun _ => by simp [h1], fun hf _ => ?_⟩
    rw [hB] at hf
    exact absurd hf (by simp)
  · have hBf : s.circuit_breaker_active = false := by simpa using hB
    by_cases hM : s.open_positions.length ≥ s.max_concurrent_positions
    · have h1 : can_open_position s = (s, false, some .maxPositions) := by
        simp [can_open_position, hBf, hM]
      refine ⟨by simp [h1], fun _ => by simp [h1], fun _ hf => ?_⟩
      simp only [h1] at hf
      rw [hBf] at hf
      exact absurd hf (by simp)
    · by_cases hD : s.daily_pnl / s.daily_start_capital * 100 ≤ -s.daily_loss_limit_percent
      · have h1 : can_open_position s =
            (activate_circuit_breaker s .dailyLoss, false, some .dailyLoss) := by
          simp [can_open_position, hBf, hM, hD]
        have h2 : can_open_position (activate_circuit_breaker s .dailyLoss) =
            (activate_circuit_breaker s .dailyLoss, false,
              some (.circuitBreaker (some .dailyLoss))) := by
          simp [can_open_position, activate_circuit_breaker]
        refine ⟨by simp [h1, h2], fun hpre => by
          simp [h1, activate_circuit_breaker, hBf] at hpre, fun _ _ => by simp [h1, h2]⟩
      · by_cases hW : (s.peak_capital - s.current_capital) / s.peak_capital * 100 ≥
            s.max_drawdown_percent
        · have h1 : can_open_position s =
              (activate_circuit_breaker s .drawdown, false, some .drawdown) := by
            simp [can_open_position, hBf, hM, hD, hW]
          have h2 : can_open_position (activate_circuit_breaker s .drawdown) =
              (activate_circuit_breaker s .drawdown, false,
                some (.circuitBreaker (some .drawdown))) := by
            simp [can_open_position, activate_circuit_breaker]
          refine ⟨by simp [h1, h2], fun hpre => by
            simp [h1, activate_circuit_breaker, hBf] at hpre, fun _ _ => by simp [h1, h2]⟩
        · by_cases hC : s.consecutive_losses ≥ s.consecutive_loss_limit
          · have h1 : can_open_position s =
                (activate_circuit_breaker s .consecutiveLosses, false,
                  some .consecutiveLosses) := by
              simp [can_open_position, hBf, hM, hD, hW, hC]
            have h2 : can_open_position (activate_circuit_breaker s .consecutiveLosses) =
                (activate_circuit_breaker s .consecutiveLosses, false,
                  some (.circuitBreaker (some .consecutiveLosses))) := by
              simp [can_open_position, activate_circuit_breaker]
            refine ⟨by simp [h1, h2], fun hpre => by
              simp [h1, activate_circuit_breaker, hBf] at hpre, fun _ _ => by simp [h1, h2]⟩
          · have h1 : can_open_position s = (s, true, none) := by
              simp [can_open_position, hBf, hM, hD, hW, hC]
            refine ⟨by simp [h1], fun _ => by simp [h1], fun _ hf => ?_⟩
            simp only [h1] at hf
            rw [hBf] at hf
            exact absurd hf (by simp)

/-- Witness for C7 at the freshly initialised default state (whose first call
returns true and mutates nothing). -/
theorem can_open_position_repeat_witness :
    (can_open_position (can_open_position State.init).1).2.1 =
      (can_open_position State.init).2.1
    ∧ ((can_open_position State.init).1.circuit_breaker_active =
          State.init.circuit_breaker_active →
        (can_open_position (can_open_position State.init).1).2.2 =
          (can_open_position State.init).2.2)
    ∧ (State.init.circuit_breaker_active = false →
        (can_open_position State.init).1.circuit_breaker_active = true →
        (can_open_position (can_open_position State.init).1).2.2 =
          some (Reason.circuitBreaker (can_open_position State.init).2.2)) :=
  can_open_position_repeat State.init (by norm_num [State.init])
    (by norm_num [State.init])

end RiskManager

/-! ## ADX engine (src/indicators/adx_engine.py) -/

namespace ADXEngine

/-- Pandas `Series.clip(lower, upper)`, per element. -/
def clip (x lo hi : ℚ) : ℚ :=
  min (max x lo) hi

/-- `ADXEngine.calculate_adx_slope` at one row: `adx.diff(periods) / periods`,
i.e. `(adx[t] − adx[t−periods]) / periods` (default `periods = 3`);
`adx_prev` is the ADX value `periods` rows back. -/
def calculate_adx_slope (adx adx_prev periods : ℚ) : ℚ :=
  (adx - adx_prev) / periods

/-- `ADXEngine.calculate_signal_confidence` at one row (rows whose inputs are
NaN — the first rows of a series — are undefined and out of scope, per the
claim).  `adx_prev3` is the ADX value three rows back, from which the source
derives the slope via `calculate_adx_slope`. -/
def calculate_signal_confidence (adx adx_prev3 plus_di minus_di : ℚ) : ℚ :=
  let adx_norm := clip (adx / 50) 0 1
  let di_spread := |plus_di - minus_di|
  let di_spread_norm := clip (di_spread / 30) 0 1
  let adx_slope := calculate_adx_slope adx adx_prev3 3
  let adx_slope_norm := clip ((adx_slope + 2) / 4) 0 1
  let confidence := adx_norm * (1 / 2) + di_spread_norm * (3 / 10) + adx_slope_norm * (1 / 5)
  clip confidence 0 1

/-- C5: the confidence score equals
0.5·clamp(adx/50,0,1) + 0.3·clamp(|plus_di−minus_di|/30,0,1) +
0.2·clamp((slope+2)/4,0,1) with slope = (adx[t]−adx[t−3])/3, the result
clamped to [0,1]; hence confidence always lies in [0,1]. -/
theorem confidence_formula (adx adx_prev3 plus_di minus_di : ℚ) :
    calculate_signal_confidence adx adx_prev3 plus_di minus_di =
      min (max ((1 / 2) * min (max (adx / 50) 0) 1
        + (3 / 10) * min (max (|plus_di - minus_di| / 30) 0) 1
        + (1 / 5) * min (max (((adx - adx_prev3) / 3 + 2) / 4) 0) 1) 0) 1
    ∧ 0 ≤ calculate_signal_confidence adx adx_prev3 plus_di minus_di
    ∧ calculate_signal_confidence adx adx_prev3 plus_di minus_di ≤ 1 := by
  refine ⟨?_, ?_, ?_⟩
  · simp only [calculate_signal_confidence, calculate_adx_slope, clip]
    congr 2
    ring
  · exact le_min (le_max_right _ _) zero_le_one
  · exact min_le_right _ _

end ADXEngine

/-! ## Signal generator (src/signals/signal_generator.py) -/

namespace SignalGenerator

/-- Position side strings. -/
inductive Side where
  | LONG
  | SHORT
deriving Repr, DecidableEq

/-- Signal type strings. -/
inductive SigType where
  | BUY
  | SELL
deriving Repr, DecidableEq

/-- Constructor parameters of `SignalGenerator.__init__` with the source
defaults (`atr_period` is only used by the ATR computation, outside this
model). -/
structure Config where
  adx_threshold : ℚ := 25
  adx_weak_threshold : ℚ := 20
  adx_slope_min : ℚ := 1 / 2
  di_spread_min : ℚ := 5
  min_confidence : ℚ := 3 / 5
  sl_atr_multiplier : ℚ := 2
  tp_atr_multiplier : ℚ := 4
deriving Repr, DecidableEq

/-- A candle row with its ADX indicator columns, as read by
`generate_entry_signal` (rows whose indicator values are NaN make the source
return `None` before any field is used and are out of scope). -/
structure Row where
  adx : ℚ
  plus_di : ℚ
  minus_di : ℚ
  adx_slope : ℚ
  confidence : ℚ
  close : ℚ
deriving Repr, DecidableEq

/-- The signal dictionary built by `generate_entry_signal` (the
`entry_condition` / `trend_strength` presentation strings are omitted).
`riskReward` is the source's `risk_reward_ratio` key. -/
structure Signal where
  signal_type : SigType
  side : Side
  entry_price : ℚ
  stop_loss : ℚ
  take_profit : ℚ
  riskReward : ℚ
  adx : ℚ
  plus_di : ℚ
  minus_di : ℚ
  adx_slope : ℚ
  di_spread : ℚ
  confidence : ℚ
  atr : ℚ
deriving Repr, DecidableEq

/-- `SignalGenerator.generate_entry_signal`.  Note the Python truthiness in
`di_spread = abs(plus_di - minus_di) if plus_di and minus_di else 0`: a DI
value equal to 0 makes the spread 0. -/
def generate_entry_signal (cfg : Config) (row : Row) (atr : ℚ) : Option Signal :=
  let di_spread := if row.plus_di ≠ 0 ∧ row.minus_di ≠ 0
                   then |row.plus_di - row.minus_di| else 0
  if row.confidence < cfg.min_confidence then none
  else if row.adx > cfg.adx_threshold ∧ row.adx_slope > cfg.adx_slope_min ∧
      row.plus_di > row.minus_di ∧ di_spread ≥ cfg.di_spread_min ∧
      row.confidence ≥ cfg.min_confidence then
    some
      { signal_type := .BUY
        side := .LONG
        entry_price := row.close
        stop_loss := row.close - atr * cfg.sl_atr_multiplier
        take_profit := row.close + atr * cfg.tp_atr_multiplier
        riskReward := cfg.tp_atr_multiplier / cfg.sl_atr_multiplier
        adx := row.adx
        plus_di := row.plus_di
        minus_di := row.minus_di
        adx_slope := row.adx_slope
        di_spread := di_spread
        confidence := row.confidence
        atr := atr }
  else if row.adx > cfg.adx_threshold ∧ row.adx_slope > cfg.adx_slope_min ∧
      row.minus_di > row.plus_di ∧ di_spread ≥ cfg.di_spread_min ∧
      row.confidence ≥ cfg.min_confidence then
    some
      { signal_type := .SELL
        side := .SHORT
        entry_price := row.close
        stop_loss := row.close + atr * cfg.sl_atr_multiplier
        take_profit := row.close - atr * cfg.tp_atr_multiplier
        riskReward := cfg.tp_atr_multiplier / cfg.sl_atr_multiplier
        adx := row.adx
        plus_di := row.plus_di
        minus_di := row.minus_di
        adx_slope := row.adx_slope
        di_spread := di_spread
        confidence := row.confidence
        atr := atr }
  else none

/-- A row passing every LONG entry condition under the default
configuration. -/
def sampleRow : Row :=
  { adx := 30, plus_di := 20, minus_di := 10, adx_slope := 1,
    confidence := 7 / 10, close := 100 }

/-- C3 counterexample: with ATR = 0 (a flat market) the generator still emits
a LONG signal whose stop loss and take profit both equal the entry price, so
stop_loss < entry_price fails for a generated signal. -/
theorem signal_ordering_counterexample :
    (generate_entry_signal {} sampleRow 0).map
        (fun s => (s.side, s.stop_loss, s.entry_price, s.take_profit)) =
      some (.LONG, 100, 100, 100)
    ∧ ¬((100 : ℚ) < 100) := by
  constructor
  · norm_num [generate_entry_signal, sampleRow]
  · norm_num

/-- C3 amended: for every generated signal, provided the ATR is positive (and
the configured stop/target multipliers are positive, as in the defaults), a
LONG signal has stop_loss < entry_price < take_profit and a SHORT signal has
take_profit < entry_price < stop_loss; every generated signal's
risk_reward_ratio equals tp_atr_multiplier/sl_atr_multiplier exactly, which
is 2 under the default configuration. -/
theorem signal_price_ordering (cfg : Config) (row : Row) (atr : ℚ) (sig : Signal)
    (hatr : 0 < atr) (hsl : 0 < cfg.sl_atr_multiplier) (htp : 0 < cfg.tp_atr_multiplier)
    (hsig : generate_entry_signal cfg row atr = some sig) :
    (sig.side = .LONG → sig.stop_loss < sig.entry_price ∧
      sig.entry_price < sig.take_profit)
    ∧ (sig.side = .SHORT → sig.take_profit < sig.entry_price ∧
      sig.entry_price < sig.stop_loss)
    ∧ sig.riskReward = cfg.tp_atr_multiplier / cfg.sl_atr_multiplier
    ∧ ({} : Config).tp_atr_multiplier / ({} : Config).sl_atr_multiplier = 2 := by
  have hsl' : 0 < atr * cfg.sl_atr_multiplier := mul_pos hatr hsl
  have htp' : 0 < atr * cfg.tp_atr_multiplier := mul_pos hatr htp
  simp only [generate_entry_signal] at hsig
  split_ifs at hsig <;>
    first
    | exact Option.noConfusion hsig
    | (rw [Option.some.injEq] at hsig
       subst hsig
       refine ⟨fun _ => ⟨by linarith, by linarith⟩, fun h => by simp at h, rfl,
         by norm_num⟩)
    | (rw [Option.some.injEq] at hsig
       subst hsig
       refine ⟨fun h => by simp at h, fun _ => ⟨by linarith, by linarith⟩, rfl,
         by norm_num⟩)

/-- The signal generated from `sampleRow` with ATR 150 under the default
configuration. -/
def sampleSignal : Signal :=
  { signal_type := .BUY, side := .LONG, entry_price := 100, stop_loss := -200,
    take_profit := 700, riskReward := 2, adx := 30, plus_di := 20, minus_di := 10,
    adx_slope := 1, di_spread := 10, confidence := 7 / 10, atr := 150 }

/-- Witness for C3 at `sampleRow` with ATR 150 and the default
configuration. -/
theorem signal_price_ordering_witness :
    (sampleSignal.side = .LONG → sampleSignal.stop_loss < sampleSignal.entry_price ∧
      sampleSignal.entry_price < sampleSignal.take_profit)
    ∧ (sampleSignal.side = .SHORT → sampleSignal.take_profit < sampleSignal.entry_price ∧
      sampleSignal.entry_price < sampleSignal.stop_loss)
    ∧ sampleSignal.riskReward = ({} : Config).tp_atr_multiplier / ({} : Config).sl_atr_multiplier
    ∧ ({} : Config).tp_atr_multiplier / ({} : Config).sl_atr_multiplier = 2 :=
  signal_price_ordering {} sampleRow 150 sampleSignal (by norm_num) (by norm_num)
    (by norm_num)
    (by norm_num [generate_entry_signal, sampleRow, sampleSignal])

end SignalGenerator

/-! ## Position manager (src/execution/position_manager.py) -/

namespace PositionManager

open SignalGenerator (Side)

/-- Constructor parameters of `PositionManager.__init__` relevant to the
price/stop lifecycle, with the source defaults. -/
structure Config where
  enable_trailing_stop : Bool := false
  trailing_stop_activation : ℚ := 1 / 2
  trailing_stop_distance : ℚ := 3 / 10
deriving Repr, DecidableEq

/-- An open position as built by `PositionManager.open_position` (ids,
timestamps, status/exit bookkeeping and the signal payload are presentation
data and omitted). -/
structure Position where
  side : Side
  entry_price : ℚ
  quantity : ℚ
  stop_loss : ℚ
  take_profit : ℚ
  current_price : ℚ
  leverage : ℚ
  margin_required : ℚ
  pnl : ℚ
  pnl_percent : ℚ
  unrealized_pnl : ℚ
  highest_price : Option ℚ
  lowest_price : Option ℚ
  trailing_stop_active : Bool
deriving Repr, DecidableEq

/-- `PositionManager.open_position`. -/
def open_position (side : Side) (entry_price quantity stop_loss take_profit
    leverage margin_required : ℚ) : Position :=
  { side := side
    entry_price := entry_price
    quantity := quantity
    stop_loss := stop_loss
    take_profit := take_profit
    current_price := entry_price
    leverage := leverage
    margin_required := margin_required
    pnl := 0
    pnl_percent := 0
    unrealized_pnl := 0
    highest_price := if side = .LONG then some entry_price else none
    lowest_price := if side = .SHORT then some entry_price else none
    trailing_stop_active := false }

/-- `PositionManager._calculate_pnl`: leveraged P&L at the position's
current price. -/
def calculate_pnl (p : Position) : Position :=
  let price_change :=
    match p.side with
    | .LONG => p.current_price - p.entry_price
    | .SHORT => p.entry_price - p.current_price
  let pnl := price_change * p.quantity
  let pnl_percent := price_change / p.entry_price * 100
  { p with unrealized_pnl := pnl * p.leverage
           pnl := pnl * p.leverage
           pnl_percent := pnl_percent * p.leverage }

/-- The `is None or current > highest` test of `update_position_price`. -/
def newExtreme (old : Option ℚ) (c : ℚ) (isHigh : Bool) : Bool :=
  match old with
  | none => true
  | some h => if isHigh then decide (c > h) else decide (c < h)

/-- The highest/lowest tracking step of `update_position_price`. -/
def track_extremes (p : Position) : Position :=
  match p.side with
  | .LONG =>
      if newExtreme p.highest_price p.current_price true then
        { p with highest_price := some p.current_price }
      else p
  | .SHORT =>
      if newExtreme p.lowest_price p.current_price false then
        { p with lowest_price := some p.current_price }
      else p

/-- `PositionManager._check_trailing_stop`: a no-op once the trailing stop is
active; otherwise, when the leveraged `pnl_percent` has reached the
activation threshold, marks it active and re-points the stop loss at
`current_price·(1 ∓ trailing_stop_distance/100)`. -/
def check_trailing_stop (cfg : Config) (p : Position) : Position :=
  if p.trailing_stop_active then p
  else if p.pnl_percent ≥ cfg.trailing_stop_activation then
    let new_sl :=
      match p.side with
      | .LONG => p.current_price * (1 - cfg.trailing_stop_distance / 100)
      | .SHORT => p.current_price * (1 + cfg.trailing_stop_distance / 100)
    { p with trailing_stop_active := true, stop_loss := new_sl }
  else p

/-- `PositionManager.update_position_price` (the wall-clock `hold_duration`
update is omitted). -/
def update_position_price (cfg : Config) (p : Position) (current_price : ℚ) :
    Position :=
  let p1 := calculate_pnl { p with current_price := current_price }
  let p2 := track_extremes p1
  if cfg.enable_trailing_stop then check_trailing_stop cfg p2 else p2

theorem calculate_pnl_frame (p : Position) :
    (calculate_pnl p).stop_loss = p.stop_loss
    ∧ (calculate_pnl p).side = p.side
    ∧ (calculate_pnl p).current_price = p.current_price
    ∧ (calculate_pnl p).trailing_stop_active = p.trailing_stop_active :=
  ⟨rfl, rfl, rfl, rfl⟩

theorem track_extremes_frame (p : Position) :
    (track_extremes p).pnl_percent = p.pnl_percent
    ∧ (track_extremes p).stop_loss = p.stop_loss
    ∧ (track_extremes p).trailing_stop_active = p.trailing_stop_active
    ∧ (track_extremes p).side = p.side
    ∧ (track_extremes p).current_price = p.current_price := by
  rcases p with ⟨side, _, _, _, _, _, _, _, _, _, _, _, _, _⟩
  cases side <;> simp only [track_extremes] <;> split_ifs <;> simp

/-- The trailing-stop-enabled configuration with default thresholds. -/
def trailCfg : Config :=
  { enable_trailing_stop := true }

/-- A LONG position at entry 100 with a tight stop at 99.92, leverage 5. -/
def trailPos : Position :=
  open_position .LONG 100 1 (2498 / 25) 110 5 20

/-- C9 counterexample: with trailing enabled (activation 0.5, distance 0.3)
and leverage 5, the position `trailPos` (entry 100, original stop 99.92)
updated to price 100.1 reaches the activation threshold, and the trailing
logic re-points the stop to 100.1·0.997 = 99.7997 — strictly below the
previously set stop 99.92, i.e. the stop moves to a looser level. -/
theorem trailing_stop_loosens_counterexample :
    (update_position_price trailCfg trailPos (1001 / 10)).trailing_stop_active = true
    ∧ (update_position_price trailCfg trailPos (1001 / 10)).stop_loss = 997997 / 10000
    ∧ trailPos.stop_loss = 2498 / 25
    ∧ (997997 / 10000 : ℚ) < 2498 / 25 := by
  refine ⟨?_, ?_, by norm_num [trailPos, open_position], by norm_num⟩ <;>
    norm_num [update_position_price, trailCfg, trailPos, open_position,
      calculate_pnl, track_extremes, newExtreme, check_trailing_stop]

/-- C9 amended: with trailing enabled, when an inactive position's leveraged
P&L percent at the new price reaches the activation threshold the stop is set
to `current_price·(1 − distance/100)` for LONG (`·(1 + distance/100)` for
SHORT) and the trailing stop becomes active; below the threshold nothing
changes; and once active, subsequent price updates never change the stop
again (so the stop never loosens after activation — though the activation
step itself may set a stop looser than the originally configured one, see the
counterexample). -/
theorem trailing_stop_ratchet (cfg : Config) (pL pS pN q : Position)
    (priceL priceS priceN price2 : ℚ)
    (hen : cfg.enable_trailing_stop = true)
    (hL0 : pL.trailing_stop_active = false) (hLside : pL.side = .LONG)
    (hLact : (calculate_pnl { pL with current_price := priceL }).pnl_percent ≥
      cfg.trailing_stop_activation)
    (hS0 : pS.trailing_stop_active = false) (hSside : pS.side = .SHORT)
    (hSact : (calculate_pnl { pS with current_price := priceS }).pnl_percent ≥
      cfg.trailing_stop_activation)
    (hN0 : pN.trailing_stop_active = false)
    (hNact : ¬((calculate_pnl { pN with current_price := priceN }).pnl_percent ≥
      cfg.trailing_stop_activation))
    (hq : q.trailing_stop_active = true) :
    ((update_position_price cfg pL priceL).stop_loss =
        priceL * (1 - cfg.trailing_stop_distance / 100)
      ∧ (update_position_price cfg pL priceL).trailing_stop_active = true)
    ∧ ((update_position_price cfg pS priceS).stop_loss =
        priceS * (1 + cfg.trailing_stop_distance / 100)
      ∧ (update_position_price cfg pS priceS).trailing_stop_active = true)
    ∧ ((update_position_price cfg pN priceN).stop_loss = pN.stop_loss
      ∧ (update_position_price cfg pN priceN).trailing_stop_active = false)
    ∧ ((update_position_price cfg q price2).stop_loss = q.stop_loss
      ∧ (update_position_price cfg q price2).trailing_stop_active = true) := by
  obtain ⟨eL1, eL2, eL3, eL4, eL5⟩ :=
    track_extremes_frame (calculate_pnl { pL with current_price := priceL })
  obtain ⟨eS1, eS2, eS3, eS4, eS5⟩ :=
    track_extremes_frame (calculate_pnl { pS with current_price := priceS })
  obtain ⟨eN1, eN2, eN3, eN4, eN5⟩ :=
    track_extremes_frame (calculate_pnl { pN with current_price := priceN })
  obtain ⟨eq1, eq2, eq3, eq4, eq5⟩ :=
    track_extremes_frame (calculate_pnl { q with current_price := price2 })
  refine ⟨?_, ?_, ?_, ?_⟩
  · have hside : (track_extremes (calculate_pnl { pL with current_price := priceL })).side
        = Side.LONG := by rw [eL4]; exact hLside
    have hcur : (track_extremes (calculate_pnl { pL with current_price := priceL })).current_price
        = priceL := by rw [eL5]; rfl
    have hact : (track_extremes (calculate_pnl { pL with current_price := priceL })).trailing_stop_active
        = false := by rw [eL3]; exact hL0
    simp only [update_position_price, hen, if_true, check_trailing_stop, hact,
      Bool.false_eq_true, if_false, eL1, hLact, if_true, hside, hcur]
    simp
  · have hside : (track_extremes (calculate_pnl { pS with current_price := priceS })).side
        = Side.SHORT := by rw [eS4]; exact hSside
    have hcur : (track_extremes (calculate_pnl { pS with current_price := priceS })).current_price
        = priceS := by rw [eS5]; rfl
    have hact : (track_extremes (calculate_pnl { pS with current_price := priceS })).trailing_stop_active
        = false := by rw [eS3]; exact hS0
    simp only [update_position_price, hen, if_true, check_trailing_stop, hact,
      Bool.false_eq_true, if_false, eS1, hSact, if_true, hside, hcur]
    simp
  · have hact : (track_extremes (calculate_pnl { pN with current_price := priceN })).trailing_stop_active
        = false := by rw [eN3]; exact hN0
    simp only [update_position_price, hen, if_true, check_trailing_stop, hact,
      Bool.false_eq_true, if_false, eN1]
    rw [if_neg hNact]
    exact ⟨eN2.trans (calculate_pnl_frame _).1, hact⟩
  · have hact : (track_extremes (calculate_pnl { q with current_price := price2 })).trailing_stop_active
        = true := by rw [eq3]; exact hq
    simp only [update_position_price, hen, if_true, check_trailing_stop, hact,
      if_true]
    exact ⟨eq2.trans (calculate_pnl_frame _).1, trivial⟩

/-- Witness for C9: `trailPos` updated to 100.1 (LONG activation), its SHORT
mirror updated to 99.9, `trailPos` updated to 100 (below threshold), and an
already-active copy updated to 50 (stop frozen). -/
theorem trailing_stop_ratchet_witness :
    ((update_position_price trailCfg trailPos (1001 / 10)).stop_loss =
        (1001 / 10) * (1 - (3 / 10) / 100)
      ∧ (update_position_price trailCfg trailPos (1001 / 10)).trailing_stop_active = true)
    ∧ ((update_position_price trailCfg (open_position .SHORT 100 1 (2502 / 25) 90 5 20)
          (999 / 10)).stop_loss = (999 / 10) * (1 + (3 / 10) / 100)
      ∧ (update_position_price trailCfg (open_position .SHORT 100 1 (2502 / 25) 90 5 20)
          (999 / 10)).trailing_stop_active = true)
    ∧ ((update_position_price trailCfg trailPos 100).stop_loss = trailPos.stop_loss
      ∧ (update_position_price trailCfg trailPos 100).trailing_stop_active = false)
    ∧ ((update_position_price trailCfg { trailPos with trailing_stop_active := true }
          50).stop_loss = { trailPos with trailing_stop_active := true }.stop_loss
      ∧ (update_position_price trailCfg { trailPos with trailing_stop_active := true }
          50).trailing_stop_active = true) :=
  trailing_stop_ratchet trailCfg trailPos (open_position .SHORT 100 1 (2502 / 25) 90 5 20)
    trailPos { trailPos with trailing_stop_active := true }
    (1001 / 10) (999 / 10) 100 50
    rfl rfl rfl
    (by norm_num [calculate_pnl, trailPos, open_position, trailCfg])
    rfl rfl
    (by norm_num [calculate_pnl, open_position, trailCfg])
    rfl
    (by norm_num [calculate_pnl, trailPos, open_position, trailCfg])
    rfl

end PositionManager

/-! ## Paper trader (src/execution/paper_trader.py)

Modelled in its default wiring `risk_manager=None` (so the risk-manager gate
in `execute_signal` is skipped, as in the source when no risk manager is
injected); the order executor and the trade database are I/O collaborators
with no effect on the balance arithmetic.  `_apply_slippage` draws
`random.uniform(0, slippage_percent)`; the draw is passed in explicitly as
`slip`, constrained to that interval by hypothesis. -/

namespace PaperTrader

open SignalGenerator (Side)

/-- The balance-relevant state of a `PaperTrader` (`__init__` stores the fee
and slippage arguments already divided by 100; the unused maker fee is
omitted). -/
structure State where
  balance : ℚ
  leverage : ℚ
  taker_fee_percent : ℚ
  slippage_percent : ℚ
  total_fees_paid : ℚ
deriving Repr, DecidableEq

/-- `PaperTrader._apply_slippage` with the uniform draw `slip` made explicit.
Only the literal side string `'BUY'` pays more; `execute_signal` passes the
position side (`'LONG'`/`'SHORT'`), which therefore always takes the
`price * (1 - slippage)` branch, while `close_position` passes `'BUY'`
exactly when closing a SHORT. -/
def apply_slippage (price : ℚ) (isBuy : Bool) (slip : ℚ) : ℚ :=
  if isBuy then price * (1 + slip) else price * (1 - slip)

/-- The fields of the signal dictionary read by `execute_signal`. -/
structure SignalIn where
  side : Side
  stop_loss : ℚ
  take_profit : ℚ
deriving Repr, DecidableEq

/-- The fields of the `position_size_data` dictionary read by
`execute_signal`. -/
structure SizeData where
  position_size_btc : ℚ
  position_size_usd : ℚ
  margin_required : ℚ
deriving Repr, DecidableEq

/-- `PaperTrader.execute_signal` (risk manager absent): rejects when the
required margin exceeds 80 percent of the balance, otherwise applies entry
slippage, charges the taker fee on the entry notional, opens the position and
locks margin plus fee out of the balance. -/
def execute_signal (st : State) (sig : SignalIn) (current_price : ℚ)
    (sz : SizeData) (entry_slip : ℚ) :
    Option (State × PositionManager.Position) :=
  if sz.margin_required > st.balance * (8 / 10) then none
  else
    let entry_price := apply_slippage current_price false entry_slip
    let fee := sz.position_size_usd * st.taker_fee_percent
    let position := PositionManager.open_position sig.side entry_price
      sz.position_size_btc sig.stop_loss sig.take_profit st.leverage
      sz.margin_required
    some
      ({ st with balance := st.balance - (sz.margin_required + fee)
                 total_fees_paid := st.total_fees_paid + fee }, position)

/-- `PaperTrader.close_position` on an open position: exit slippage
(`'SELL'` when closing a LONG, `'BUY'` when closing a SHORT), taker fee on
the exit notional `quantity · exit_price`, final P&L via
`PositionManager._calculate_pnl` at the exit price, and balance credit
`margin + pnl − fee`. -/
def close_position (st : State) (p : PositionManager.Position)
    (current_price exit_slip : ℚ) : State × PositionManager.Position :=
  let exit_isBuy := decide (p.side = Side.SHORT)
  let exit_price := apply_slippage current_price exit_isBuy exit_slip
  let notional_value := p.quantity * exit_price
  let fee := notional_value * st.taker_fee_percent
  let closed := PositionManager.calculate_pnl { p with current_price := exit_price }
  ({ st with balance := st.balance + (p.margin_required + closed.pnl - fee)
             total_fees_paid := st.total_fees_paid + fee }, closed)

/-- C4: with `slippage_percent = 0` (which pins both uniform draws to 0),
executing a signal and immediately closing the resulting position at the same
market price returns the balance to exactly its pre-trade value minus the two
fee charges — entry fee on the entry notional and exit fee on the exit
notional `quantity · price` — the position's P&L at the unchanged price being
zero and the margin being returned in full. -/
theorem round_trip_balance (st : State) (sig : SignalIn) (price : ℚ)
    (sz : SizeData) (s1 : State) (pos : PositionManager.Position)
    (entry_slip exit_slip : ℚ)
    (hslip : st.slippage_percent = 0)
    (he1 : 0 ≤ entry_slip) (he2 : entry_slip ≤ st.slippage_percent)
    (hx1 : 0 ≤ exit_slip) (hx2 : exit_slip ≤ st.slippage_percent)
    (hexec : execute_signal st sig price sz entry_slip = some (s1, pos)) :
    (close_position s1 pos price exit_slip).2.pnl = 0
    ∧ (close_position s1 pos price exit_slip).1.balance =
        st.balance - sz.position_size_usd * st.taker_fee_percent
          - sz.position_size_btc * price * st.taker_fee_percent := by
  have hE : entry_slip = 0 := le_antisymm (hslip ▸ he2) he1
  have hX : exit_slip = 0 := le_antisymm (hslip ▸ hx2) hx1
  subst hE hX
  simp only [execute_signal] at hexec
  split_ifs at hexec with hm
  all_goals first
    | exact Option.noConfusion hexec
    | (rw [Option.some.injEq, Prod.mk.injEq] at hexec
       obtain ⟨h1, h2⟩ := hexec
       subst h1
       subst h2
       rcases hside : sig.side with _ | _ <;>
         simp [close_position, apply_slippage, PositionManager.calculate_pnl,
           PositionManager.open_position, hside] <;>
         ring)

/-- Witness for C4: balance 100, fee rate 1/1000, zero slippage, a LONG
round trip at price 100 with notional 100, quantity 1 and margin 20: the
final balance is 100 − 0.1 − 0.1 = 99.8. -/
theorem round_trip_balance_witness :
    (close_position
        { balance := 100 - (20 + 100 * (1 / 1000)), leverage := 5,
          taker_fee_percent := 1 / 1000, slippage_percent := 0,
          total_fees_paid := 100 * (1 / 1000) }
        (PositionManager.open_position .LONG (100 * (1 - 0)) 1 95 110 5 20)
        100 0).2.pnl = 0
    ∧ (close_position
        { balance := 100 - (20 + 100 * (1 / 1000)), leverage := 5,
          taker_fee_percent := 1 / 1000, slippage_percent := 0,
          total_fees_paid := 100 * (1 / 1000) }
        (PositionManager.open_position .LONG (100 * (1 - 0)) 1 95 110 5 20)
        100 0).1.balance =
        100 - 100 * (1 / 1000) - 1 * 100 * (1 / 1000) :=
  round_trip_balance
    { balance := 100, leverage := 5, taker_fee_percent := 1 / 1000,
      slippage_percent := 0, total_fees_paid := 0 }
    { side := .LONG, stop_loss := 95, take_profit := 110 }
    100
    { position_size_btc := 1, position_size_usd := 100, margin_required := 20 }
    { balance := 100 - (20 + 100 * (1 / 1000)), leverage := 5,
      taker_fee_percent := 1 / 1000, slippage_percent := 0,
      total_fees_paid := 100 * (1 / 1000) }
    (PositionManager.open_position .LONG (100 * (1 - 0)) 1 95 110 5 20)
    0 0 rfl (by norm_num) (by norm_num) (by norm_num) (by norm_num)
    (by norm_num [execute_signal, apply_slippage])

end PaperTrader

/-! ## Signal filters (src/signals/signal_filters.py)

Timestamps are modelled as rational minute counts on a common clock (the
source converts strings and Unix stamps to `datetime`; `time_diff` is the
difference in minutes).  The hour of day of a timestamp `t` is
`⌊t/60⌋ mod 24`, minutes being counted from a midnight epoch. -/

namespace SignalFilters

open SignalGenerator (Side SigType)

/-- Names of the filters, as written into `filter_reason`. -/
inductive FilterName where
  | confidence
  | adx_strength
  | di_spread
  | cooldown
  | time_of_day
  | volume
  | volatility
deriving Repr, DecidableEq

/-- Constructor parameters of `SignalFilters.__init__` with the source
defaults. -/
structure Config where
  enable_short_bias : Bool := true
  short_bias_multiplier : ℚ := 3 / 2
  min_confidence : ℚ := 3 / 5
  min_adx : ℚ := 25
  min_di_spread : ℚ := 5
  cooldown_minutes : ℚ := 15
  min_volume_percentile : ℚ := 25
  enable_time_filter : Bool := false
  trading_hours_start : ℤ := 0
  trading_hours_end : ℤ := 24
deriving Repr, DecidableEq

/-- The signal dictionary as read and annotated by the filter pipeline.
`timestamp` is `none` when the key is absent; `atr = some 0` is falsy in
Python and skips the volatility filter. -/
structure Signal where
  signal_type : SigType
  side : Side
  confidence : ℚ
  adx : ℚ
  di_spread : ℚ
  timestamp : Option ℚ
  entry_price : ℚ
  atr : Option ℚ
  candle_index : Option ℕ
  confidence_adjusted : Option Bool
  confidence_boost : Option ℚ
  filtered : Option Bool
  filter_reason : Option FilterName
deriving Repr, DecidableEq

/-- The candle-context dataframe as consumed by the volume filter:
`volumes = none` models a missing volume column; `n_rows` is the row count
(`df.empty` is `n_rows = 0`). -/
structure DF where
  n_rows : ℕ
  volumes : Option (List ℚ)
deriving Repr, DecidableEq

/-- `SignalFilters.apply_short_bias`: boosts a SHORT signal's confidence by
the configured multiplier, capped at 1. -/
def apply_short_bias (cfg : Config) (s : Signal) : Signal :=
  if cfg.enable_short_bias = false then s
  else if s.side = .SHORT then
    let boosted := min (s.confidence * cfg.short_bias_multiplier) 1
    { s with confidence := boosted
             confidence_adjusted := some true
             confidence_boost := some (boosted - s.confidence) }
  else s

/-- `SignalFilters.filter_by_confidence`. -/
def filter_by_confidence (cfg : Config) (s : Signal) : Bool :=
  decide (s.confidence ≥ cfg.min_confidence)

/-- `SignalFilters.filter_by_adx_strength`. -/
def filter_by_adx_strength (cfg : Config) (s : Signal) : Bool :=
  decide (s.adx ≥ cfg.min_adx)

/-- `SignalFilters.filter_by_di_spread`. -/
def filter_by_di_spread (cfg : Config) (s : Signal) : Bool :=
  decide (s.di_spread ≥ cfg.min_di_spread)

/-- `SignalFilters.filter_by_cooldown`: passes (without recording) when the
signal has no timestamp; otherwise rejects when the elapsed minutes since the
last signal of the same type are below the cooldown, and on pass records the
signal's timestamp for its type — this recording is the state mutation the
claim is about. -/
def filter_by_cooldown (cfg : Config) (last : SigType → Option ℚ) (s : Signal) :
    Bool × (SigType → Option ℚ) :=
  match s.timestamp with
  | none => (true, last)
  | some t =>
      match last s.signal_type with
      | some prev =>
          if t - prev < cfg.cooldown_minutes then (false, last)
          else (true, fun k => if k = s.signal_type then some t else last k)
      | none => (true, fun k => if k = s.signal_type then some t else last k)

/-- Hour of day of a minute-count timestamp. -/
def hourOf (t : ℚ) : ℤ :=
  ⌊t / 60⌋ % 24

/-- `SignalFilters.filter_by_time_of_day`, with wrap-around ranges. -/
def filter_by_time_of_day (cfg : Config) (s : Signal) : Bool :=
  if cfg.enable_time_filter = false then true
  else
    match s.timestamp with
    | none => true
    | some t =>
        let hour := hourOf t
        if cfg.trading_hours_start ≤ cfg.trading_hours_end then
          decide (cfg.trading_hours_start ≤ hour ∧ hour < cfg.trading_hours_end)
        else
          decide (hour ≥ cfg.trading_hours_start ∨ hour < cfg.trading_hours_end)

/-- Pandas `Series.quantile` with the default linear interpolation, over an
unsorted list (the empty case is unreachable through the volume filter, which
checks `df.empty` first). -/
def quantile (xs : List ℚ) (q : ℚ) : ℚ :=
  let vs := xs.insertionSort (· ≤ ·)
  let n := vs.length
  if n = 0 then 0
  else
    let h := q * ((n : ℚ) - 1)
    let lo := ⌊h⌋.toNat
    let hi := min (lo + 1) (n - 1)
    let vlo := vs.getD lo 0
    let vhi := vs.getD hi 0
    vlo + (h - (lo : ℚ)) * (vhi - vlo)

/-- `SignalFilters.filter_by_volume`: requires the candle's volume to be at
least the configured percentile of the window. -/
def filter_by_volume (cfg : Config) (s : Signal) (df : DF) : Bool :=
  if df.n_rows = 0 then true
  else
    match df.volumes with
    | none => true
    | some vs =>
        match s.candle_index with
        | none => true
        | some idx =>
            if idx ≥ df.n_rows then true
            else
              decide (vs.getD idx 0 ≥ quantile vs (cfg.min_volume_percentile / 100))

/-- `SignalFilters.filter_by_volatility`: ATR must be at least 0.1 percent of
the entry price (a missing or zero ATR is falsy and skips the filter). -/
def filter_by_volatility (s : Signal) : Bool :=
  match s.atr with
  | none => true
  | some a =>
      if a = 0 then true
      else decide (a ≥ s.entry_price * (1 / 1000))

/-- `SignalFilters.filter_signal`: SHORT bias first, then the reject-gates in
source order (confidence, ADX, DI spread, cooldown, time of day, and — when a
dataframe is supplied — volume and volatility), short-circuiting on the first
failure and annotating the signal; the cooldown state update survives any
later rejection. -/
def filter_signal (cfg : Config) (last : SigType → Option ℚ) (s : Signal)
    (df : Option DF) : Bool × Signal × (SigType → Option ℚ) :=
  let s := apply_short_bias cfg s
  if filter_by_confidence cfg s = false then
    (false, { s with filtered := some true, filter_reason := some .confidence }, last)
  else if filter_by_adx_strength cfg s = false then
    (false, { s with filtered := some true, filter_reason := some .adx_strength }, last)
  else if filter_by_di_spread cfg s = false then
    (false, { s with filtered := some true, filter_reason := some .di_spread }, last)
  else
    let c := filter_by_cooldown cfg last s
    if c.1 = false then
      (false, { s with filtered := some true, filter_reason := some .cooldown }, c.2)
    else if filter_by_time_of_day cfg s = false then
      (false, { s with filtered := some true, filter_reason := some .time_of_day }, c.2)
    else
      match df with
      | none => (true, { s with filtered := some false, filter_reason := none }, c.2)
      | some d =>
          if filter_by_volume cfg s d = false then
            (false, { s with filtered := some true, filter_reason := some .volume }, c.2)
          else if filter_by_volatility s = false then
            (false, { s with filtered := some true, filter_reason := some .volatility }, c.2)
          else (true, { s with filtered := some false, filter_reason := none }, c.2)

theorem apply_short_bias_frame (cfg : Config) (s : Signal) :
    (apply_short_bias cfg s).signal_type = s.signal_type
    ∧ (apply_short_bias cfg s).timestamp = s.timestamp := by
  unfold apply_short_bias
  split_ifs <;> simp

/-- C6: whenever a signal with a timestamp reaches the cooldown gate (the
confidence, ADX and DI-spread gates pass on the bias-adjusted signal) and
clears it, the last-signal-time map records that signal's timestamp under its
type in the pipeline's final state — regardless of whether a later gate
(time-of-day, volume or volatility) rejects the signal in the same pass. -/
theorem cooldown_updates_on_rejected (cfg : Config) (last : SigType → Option ℚ)
    (s : Signal) (df : Option DF) (t : ℚ)
    (hts : s.timestamp = some t)
    (hconf : filter_by_confidence cfg (apply_short_bias cfg s) = true)
    (hadx : filter_by_adx_strength cfg (apply_short_bias cfg s) = true)
    (hspread : filter_by_di_spread cfg (apply_short_bias cfg s) = true)
    (hcool : (filter_by_cooldown cfg last (apply_short_bias cfg s)).1 = true) :
    (filter_signal cfg last s df).2.2 s.signal_type = some t := by
  obtain ⟨hty, hts'⟩ := apply_short_bias_frame cfg s
  have hmap : (filter_by_cooldown cfg last (apply_short_bias cfg s)).2 s.signal_type
      = some t := by
    rw [filter_by_cooldown] at hcool ⊢
    rw [hts', hts] at hcool ⊢
    rcases hlast : last (apply_short_bias cfg s).signal_type with _ | prev
    · show ((true, fun k => if k = (apply_short_bias cfg s).signal_type
          then some t else last k) : Bool × (SigType → Option ℚ)).2 s.signal_type = some t
      simp [hty]
    · rw [hlast] at hcool
      have hcool' : (if t - prev < cfg.cooldown_minutes then (false, last)
          else ((true, fun k => if k = (apply_short_bias cfg s).signal_type
            then some t else last k) : Bool × (SigType → Option ℚ))).1 = true := hcool
      show (if t - prev < cfg.cooldown_minutes then (false, last)
          else ((true, fun k => if k = (apply_short_bias cfg s).signal_type
            then some t else last k) : Bool × (SigType → Option ℚ))).2 s.signal_type = some t
      split_ifs at hcool' ⊢ with hlt
      simp [hty]
  rw [filter_signal]
  rw [if_neg (by rw [hconf]; simp), if_neg (by rw [hadx]; simp),
    if_neg (by rw [hspread]; simp), if_neg (by rw [hcool]; simp)]
  repeat' split
  all_goals exact hmap

/-- The time-filtering configuration used by the C6 witness: trading hours
9:00–17:00. -/
def windowCfg : Config :=
  { enable_time_filter := true, trading_hours_start := 9, trading_hours_end := 17 }

/-- A SHORT signal at minute 1200 (hour 20, outside the 9–17 window). -/
def lateSignal : Signal :=
  { signal_type := .SELL, side := .SHORT, confidence := 1 / 2, adx := 30,
    di_spread := 8, timestamp := some 1200, entry_price := 100, atr := none,
    candle_index := none, confidence_adjusted := none, confidence_boost := none,
    filtered := none, filter_reason := none }

/-- Witness for C6: `lateSignal` clears the cooldown gate on an empty map
(its boosted confidence 0.75 passes the 0.6 floor), is then rejected by the
time-of-day gate, and the final state still records timestamp 1200 for
SELL. -/
theorem cooldown_updates_on_rejected_witness :
    (filter_signal windowCfg (fun _ => none) lateSignal none).1 = false
    ∧ (filter_signal windowCfg (fun _ => none) lateSignal none).2.1.filter_reason =
        some .time_of_day
    ∧ (filter_signal windowCfg (fun _ => none) lateSignal none).2.2
        lateSignal.signal_type = some 1200 :=
  ⟨by norm_num [filter_signal, windowCfg, lateSignal, apply_short_bias,
      filter_by_confidence, filter_by_adx_strength, filter_by_di_spread,
      filter_by_cooldown, filter_by_time_of_day, hourOf, min_def],
   by norm_num [filter_signal, windowCfg, lateSignal, apply_short_bias,
      filter_by_confidence, filter_by_adx_strength, filter_by_di_spread,
      filter_by_cooldown, filter_by_time_of_day, hourOf, min_def],
   cooldown_updates_on_rejected windowCfg (fun _ => none) lateSignal none 1200
     rfl
     (by norm_num [filter_by_confidence, windowCfg, lateSignal, apply_short_bias,
        min_def])
     (by norm_num [filter_by_adx_strength, windowCfg, lateSignal, apply_short_bias,
        min_def])
     (by norm_num [filter_by_di_spread, windowCfg, lateSignal, apply_short_bias,
        min_def])
     (by norm_num [filter_by_cooldown, windowCfg, lateSignal, apply_short_bias,
        min_def])⟩

end SignalFilters

end Andromeda
